import Mathlib

/-!
Verification of the musinsa price-tracker core pipeline.

Shallow embedding of the repository's pure logic:
  * `parse_price_from_text` (src/app/category_crawler.py)
  * the product-detail state extraction (src/app/crawler.py, `extract_data_from_script_tag`)
  * the category listing element extraction and scroll loop
    (src/app/category_crawler.py, `fetch_category_products`)
  * the reconciliation/upsert engine and refresh engine over a relational-session
    model (src/app/services.py together with src/app/models.py)

Machine reals (Python floats) are modelled as exact rationals; Python `round`
is modelled as round-half-to-even, `int()` on a float as truncation toward
zero.  SQLAlchemy's declarative constructor is modelled by an explicit check
of the supplied keyword names against the model's mapped attribute names,
which is exactly what `_declarative_constructor` does (it raises `TypeError`
on an unknown keyword).
-/

namespace Musinsa

/-! ### Python arithmetic and string helpers -/

/-- Truncation toward zero of a rational, i.e. Python `int(x)` on a float. -/
def pyTrunc (q : ℚ) : ℤ := if 0 ≤ q then ⌊q⌋ else -⌊-q⌋

/-- Python `s.startswith(pre)`. -/
def pyStartsWith (s pre : String) : Bool := pre.data.isPrefixOf s.data

/-- Round-half-to-even to the nearest integer, i.e. Python `round(x)`. -/
def roundHalfEven (q : ℚ) : ℤ :=
  let f := ⌊q⌋
  let frac := q - (f : ℚ)
  if frac < 1/2 then f
  else if 1/2 < frac then f + 1
  else if Even f then f else f + 1

/-- Python `round(x, 1)`: round to one decimal digit, ties to even. -/
def pyRound1 (q : ℚ) : ℚ := (roundHalfEven (q * 10) : ℚ) / 10

/-- Numeric value of a list of decimal digit characters. -/
def digitsVal (l : List Char) : ℤ :=
  l.foldl (fun a c => a * 10 + ((c.toNat : ℤ) - 48)) 0

/-- Python `str.strip()` on a character list: drop whitespace on both ends. -/
def pyStrip (l : List Char) : List Char :=
  ((l.dropWhile Char.isWhitespace).reverse.dropWhile Char.isWhitespace).reverse

/-! ### PriceFields parser (src/app/category_crawler.py, `parse_price_from_text`) -/

/-- Membership in the regex character class `[\d,]`. -/
def isTokChar (c : Char) : Bool := c.isDigit || c == ','

theorem dropWhile_length_le (p : Char → Bool) (l : List Char) :
    (l.dropWhile p).length ≤ l.length := by
  induction l with
  | nil => simp
  | cons c cs ih =>
    rw [List.dropWhile_cons]
    split
    · exact le_trans ih (Nat.le_succ _)
    · simp

/-- Model of `re.findall(r'[\d,]+', s)`: the maximal runs of digit-or-comma
characters of `s`, in order. -/
def findAllNumRuns : List Char → List (List Char)
  | [] => []
  | c :: cs =>
    if isTokChar c then
      (c :: cs.takeWhile isTokChar) :: findAllNumRuns (cs.dropWhile isTokChar)
    else
      findAllNumRuns cs
termination_by l => l.length
decreasing_by
  · simp only [List.length_cons]
    exact Nat.lt_succ_of_le (dropWhile_length_le _ _)
  · simp

/-- Model of `int(run.replace(',', ''))` on one regex match: drop the commas
and convert the remaining digits; `none` models the `ValueError` raised by
`int` on an empty or non-digit string. -/
def pyIntOfRun (l : List Char) : Option ℤ :=
  let ds := l.filter (fun c => c != ',')
  if !ds.isEmpty && ds.all Char.isDigit then some (digitsVal ds) else none

/-- Python `max` over a nonempty list given as head and tail. -/
def pyMax (x : ℤ) (xs : List ℤ) : ℤ := xs.foldl max x

/-- Python `min` over a nonempty list given as head and tail. -/
def pyMin (x : ℤ) (xs : List ℤ) : ℤ := xs.foldl min x

/-- Embedding of `parse_price_from_text` from src/app/category_crawler.py.
The result is `(정가, 판매가, 할인율)`; `Except.error ()` models an uncaught
`ValueError` escaping the function. -/
def parse_price_from_text (s : List Char) : Except Unit (ℤ × ℤ × ℚ) :=
  if s = [] ∨ pyStrip s = ['0'] then .ok (0, 0, 0)
  else
    let runs := findAllNumRuns s
    if runs = [] then .ok (0, 0, 0)
    else
      match runs.mapM (fun r => (pyIntOfRun r).elim (Except.error ()) Except.ok) with
      | .error e => .error e
      | .ok prices =>
        match prices with
        | [] => .ok (0, 0, 0)
        | [p] => .ok (p, p, 0)
        | p :: q :: rest =>
          let original := pyMax p (q :: rest)
          let sale := pyMin p (q :: rest)
          if sale < original then
            .ok (original, sale,
              pyRound1 ((((original - sale : ℤ) : ℚ) / (original : ℚ)) * 100))
          else
            .ok (sale, sale, 0)

/-- Result triple asserted by the specification sentence for the price parser,
expressed over the list of numeric token values of the input. -/
def claimPriceTriple (vals : List ℤ) : ℤ × ℤ × ℚ :=
  match vals with
  | [] => (0, 0, 0)
  | [t] => (t, t, 0)
  | p :: q :: rest =>
    let n := pyMax p (q :: rest)
    let s := pyMin p (q :: rest)
    if s < n then (n, s, pyRound1 ((((n - s : ℤ) : ℚ) / (n : ℚ)) * 100))
    else (s, s, 0)

/-! ### Lemmas about the tokenizer -/

theorem findAllNumRuns_all_tokChar :
    ∀ s : List Char, ∀ r ∈ findAllNumRuns s, ∀ c ∈ r, isTokChar c = true := by
  intro s
  induction s using findAllNumRuns.induct with
  | case1 => intro r hr; simp [findAllNumRuns] at hr
  | case2 c cs htok ih =>
    intro r hr
    rw [findAllNumRuns, if_pos htok] at hr
    rcases List.mem_cons.mp hr with h | h
    · subst h
      intro x hx
      rcases List.mem_cons.mp hx with h | h
      · subst h; exact htok
      · exact List.mem_takeWhile_imp h
    · exact ih r h
  | case3 c cs htok ih =>
    intro r hr
    rw [findAllNumRuns, if_neg htok] at hr
    exact ih r hr

theorem findAllNumRuns_nil_of_none :
    ∀ s : List Char, (∀ c ∈ s, isTokChar c = false) → findAllNumRuns s = [] := by
  intro s
  induction s with
  | nil => intro _; rw [findAllNumRuns]
  | cons c cs ih =>
    intro h
    rw [findAllNumRuns, if_neg]
    · exact ih fun x hx => h x (List.mem_cons_of_mem _ hx)
    · simp [h c (List.mem_cons_self _ _)]

theorem findAllNumRuns_append_of_none (w rest : List Char)
    (h : ∀ c ∈ w, isTokChar c = false) :
    findAllNumRuns (w ++ rest) = findAllNumRuns rest := by
  induction w with
  | nil => rfl
  | cons c cs ih =>
    rw [List.cons_append, findAllNumRuns, if_neg]
    · exact ih fun x hx => h x (List.mem_cons_of_mem _ hx)
    · simp [h c (List.mem_cons_self _ _)]

theorem isTokChar_false_of_whitespace (c : Char) (h : c.isWhitespace = true) :
    isTokChar c = false := by
  simp only [Char.isWhitespace, Bool.or_eq_true, decide_eq_true_eq] at h
  rcases h with ((rfl | rfl) | rfl) | rfl <;> decide

/-- A string whose `strip()` is the single character `0` decomposes into
whitespace, the digit, and whitespace. -/
theorem pyStrip_eq_zero_decomp (l : List Char) (h : pyStrip l = ['0']) :
    ∃ w1 w2, (∀ c ∈ w1, c.isWhitespace = true) ∧ (∀ c ∈ w2, c.isWhitespace = true) ∧
      l = w1 ++ '0' :: w2 := by
  have h1 : (l.dropWhile Char.isWhitespace).reverse.dropWhile Char.isWhitespace = ['0'] := by
    have := congrArg List.reverse h
    simpa [pyStrip] using this
  refine ⟨l.takeWhile Char.isWhitespace,
    ((l.dropWhile Char.isWhitespace).reverse.takeWhile Char.isWhitespace).reverse, ?_, ?_, ?_⟩
  · intro c hc; exact List.mem_takeWhile_imp hc
  · intro c hc
    exact List.mem_takeWhile_imp (List.mem_reverse.mp hc)
  · have hA : l.dropWhile Char.isWhitespace
        = '0' :: ((l.dropWhile Char.isWhitespace).reverse.takeWhile Char.isWhitespace).reverse := by
      have hrev : (l.dropWhile Char.isWhitespace).reverse
          = (l.dropWhile Char.isWhitespace).reverse.takeWhile Char.isWhitespace ++ ['0'] := by
        conv_lhs => rw [← List.takeWhile_append_dropWhile (p := Char.isWhitespace)
          (l := (l.dropWhile Char.isWhitespace).reverse)]
        rw [h1]
      have := congrArg List.reverse hrev
      simpa using this
    conv_lhs => rw [← List.takeWhile_append_dropWhile (p := Char.isWhitespace) (l := l), hA]

theorem findAllNumRuns_of_strip_zero (l : List Char) (h : pyStrip l = ['0']) :
    findAllNumRuns l = [['0']] := by
  obtain ⟨w1, w2, hw1, hw2, rfl⟩ := pyStrip_eq_zero_decomp l h
  rw [findAllNumRuns_append_of_none w1 _
      (fun c hc => isTokChar_false_of_whitespace c (hw1 c hc))]
  rw [findAllNumRuns, if_pos (by decide)]
  have htw : w2.takeWhile isTokChar = [] := by
    cases w2 with
    | nil => rfl
    | cons d ds =>
      rw [List.takeWhile_cons, if_neg]
      simp [isTokChar_false_of_whitespace d (hw2 d (List.mem_cons_self _ _))]
  have hdw : w2.dropWhile isTokChar = w2 := by
    cases w2 with
    | nil => rfl
    | cons d ds =>
      rw [List.dropWhile_cons, if_neg]
      simp [isTokChar_false_of_whitespace d (hw2 d (List.mem_cons_self _ _))]
  rw [htw, hdw, findAllNumRuns_nil_of_none w2
      (fun c hc => isTokChar_false_of_whitespace c (hw2 c hc))]

theorem pyIntOfRun_eq_some (r : List Char) (htok : ∀ c ∈ r, isTokChar c = true)
    (hne : r.filter (fun c => c != ',') ≠ []) :
    pyIntOfRun r = some (digitsVal (r.filter (fun c => c != ','))) := by
  unfold pyIntOfRun
  rw [if_pos]
  rw [Bool.and_eq_true]
  constructor
  · simpa [List.isEmpty_iff] using hne
  · rw [List.all_eq_true]
    intro c hc
    have h1 := List.mem_of_mem_filter hc
    have h2 := List.of_mem_filter hc
    have h3 := htok c h1
    simp only [isTokChar, Bool.or_eq_true] at h3
    rcases h3 with h3 | h3
    · exact h3
    · exfalso
      rw [beq_iff_eq] at h3
      subst h3
      simp at h2

theorem mapM_price_ok (f : List Char → ℤ) :
    ∀ runs : List (List Char), (∀ r ∈ runs, pyIntOfRun r = some (f r)) →
    runs.mapM (fun r => (pyIntOfRun r).elim (Except.error ()) Except.ok)
      = (Except.ok (runs.map f) : Except Unit (List ℤ)) := by
  intro runs
  induction runs with
  | nil => intro _; rfl
  | cons r rs ih =>
    intro h
    rw [List.mapM_cons, h r (List.mem_cons_self _ _),
      ih (fun x hx => h x (List.mem_cons_of_mem _ hx))]
    rfl

theorem filterMap_pyIntOfRun_eq_map (f : List Char → ℤ) :
    ∀ runs : List (List Char), (∀ r ∈ runs, pyIntOfRun r = some (f r)) →
    runs.filterMap pyIntOfRun = runs.map f := by
  intro runs
  induction runs with
  | nil => intro _; rfl
  | cons r rs ih =>
    intro h
    rw [List.filterMap_cons, h r (List.mem_cons_self _ _),
      ih (fun x hx => h x (List.mem_cons_of_mem _ hx)), List.map_cons]

/-! ### C4: behaviour of the price-fields parser -/

/-- C4 counterexample: the claim says that an input containing no numeric
token returns `(0, 0, 0.0)`, but on the input `","` (which contains no
numeric token, since its only `[\d,]+` match is the digitless run `","`)
`parse_price_from_text` raises a `ValueError` (from `int('')`) instead of
returning `(0, 0, 0.0)`. -/
theorem C4_parser_counterexample :
    (findAllNumRuns [',']).filterMap pyIntOfRun = [] ∧
    parse_price_from_text [','] = .error () := by
  have h1 : findAllNumRuns [','] = [[',']] := by
    rw [findAllNumRuns]
    norm_num [isTokChar]
    rw [findAllNumRuns]
  have h2 : pyIntOfRun [','] = none := by rfl
  constructor
  · rw [h1]
    simp [h2]
  · rw [parse_price_from_text, if_neg (by decide)]
    simp only [h1, List.mapM_cons, List.mapM_nil, h2, Option.elim]
    rfl

/-- C4 (amended): for every input string all of whose `[\d,]+` matches
contain at least one digit, the parser returns `(0,0,0.0)` when there is no
numeric token, `(T,T,0.0)` for exactly one token of value `T`, and
`(max, min, round((max-min)/max*100, 1))` (or `(v,v,0.0)` when all tokens
share the value `v`) for two or more tokens.  Inputs with a digitless match
(such as a bare comma) instead raise a `ValueError`. -/
theorem C4_parser_amended (s : List Char)
    (h : ∀ r ∈ findAllNumRuns s, r.filter (fun c => c != ',') ≠ []) :
    parse_price_from_text s =
      .ok (claimPriceTriple ((findAllNumRuns s).filterMap pyIntOfRun)) := by
  have hsome : ∀ r ∈ findAllNumRuns s,
      pyIntOfRun r = some (digitsVal (r.filter (fun c => c != ','))) :=
    fun r hr => pyIntOfRun_eq_some r (findAllNumRuns_all_tokChar s r hr) (h r hr)
  rw [parse_price_from_text]
  split
  case isTrue h0 =>
    rcases h0 with rfl | h0
    · have he : findAllNumRuns ([] : List Char) = [] := by rw [findAllNumRuns]
      rw [he]
      rfl
    · rw [findAllNumRuns_of_strip_zero _ h0]
      rfl
  case isFalse h0 =>
    by_cases hruns : findAllNumRuns s = []
    · simp only [hruns, if_pos]
      rfl
    · simp only [if_neg hruns]
      rw [mapM_price_ok _ _ hsome, filterMap_pyIntOfRun_eq_map _ _ hsome]
      generalize (findAllNumRuns s).map _ = vals
      match vals with
      | [] => rfl
      | [p] => rfl
      | p :: q :: rest =>
        show _ = Except.ok (claimPriceTriple (p :: q :: rest))
        simp only [claimPriceTriple]
        split <;> rfl

/-- C4 witness: the amended theorem applied to the concrete input `"5"`. -/
theorem C4_parser_amended_witness :
    (∀ r ∈ findAllNumRuns ['5'], r.filter (fun c => c != ',') ≠ []) ∧
    parse_price_from_text ['5'] =
      .ok (claimPriceTriple ((findAllNumRuns ['5']).filterMap pyIntOfRun)) := by
  have h1 : findAllNumRuns ['5'] = [['5']] := by
    have he : findAllNumRuns ([] : List Char) = [] := by rw [findAllNumRuns]
    rw [findAllNumRuns]
    simp [isTokChar, he]
  refine ⟨?_, C4_parser_amended ['5'] ?_⟩ <;>
    · rw [h1]
      decide

/-! ### A model of parsed JSON values and the Python operations on them

Python `json.loads` maps JSON `null` to `None`; `dict.get(k)` also returns
`None` when the key is missing, so both are represented by `Json.null`.
Dictionaries built from JSON objects keep the last occurrence of a repeated
key. -/

inductive Json where
  | null
  | bool (b : Bool)
  | num (q : ℚ)
  | str (s : String)
  | arr (xs : List Json)
  | obj (kvs : List (String × Json))

/-- Lookup in a Python dict built from a JSON object: last occurrence wins. -/
def dictGet (kvs : List (String × Json)) (k : String) : Option Json :=
  kvs.reverse.lookup k

/-- Python `d.get(k)`: `None` when missing. -/
def pyGet (kvs : List (String × Json)) (k : String) : Json :=
  (dictGet kvs k).getD .null

/-- Python `d.get(k, default)`. -/
def pyGetD (kvs : List (String × Json)) (k : String) (d : Json) : Json :=
  (dictGet kvs k).getD d

/-- Model of the source's defensive sub-object read:
`x = data.get(k, {})` followed by `if x is None: x = {}`. -/
def getObjOr (kvs : List (String × Json)) (k : String) : Json :=
  match dictGet kvs k with
  | none => .obj []
  | some .null => .obj []
  | some v => v

/-- Python truthiness of a parsed-JSON value. -/
def pyTruthy : Json → Bool
  | .null => false
  | .bool b => b
  | .num q => q != 0
  | .str s => s != ""
  | .arr xs => !xs.isEmpty
  | .obj kvs => !kvs.isEmpty

/-- Attribute access `x.get(...)` requires `x` to be a dict; on anything else
Python raises `AttributeError`. -/
def asObj : Json → Except Unit (List (String × Json))
  | .obj kvs => .ok kvs
  | _ => .error ()

/-- String method access (`x.startswith(...)`) requires `x` to be a `str`. -/
def asStr : Json → Except Unit String
  | .str s => .ok s
  | _ => .error ()

/-- Split a character list at the first character satisfying `p`. -/
def breakAt (p : Char → Bool) (l : List Char) : List Char × List Char :=
  (l.takeWhile (fun c => !p c), l.dropWhile (fun c => !p c))

/-- Optional sign followed by a nonempty digit string, as accepted by
Python `int(...)` (underscore separators are not modelled). -/
def parseSignedDigits (l : List Char) : Option ℤ :=
  match l with
  | '+' :: ds => if !ds.isEmpty && ds.all Char.isDigit then some (digitsVal ds) else none
  | '-' :: ds => if !ds.isEmpty && ds.all Char.isDigit then some (-(digitsVal ds)) else none
  | ds => if !ds.isEmpty && ds.all Char.isDigit then some (digitsVal ds) else none

/-- Unsigned decimal mantissa with an optional point, as accepted by Python
`float(...)`. -/
def parseMantissa (l : List Char) : Option ℚ :=
  let (ip, rest) := breakAt (fun c => c == '.') l
  match rest with
  | [] => if !ip.isEmpty && ip.all Char.isDigit then some ((digitsVal ip : ℚ)) else none
  | _ :: fp =>
    if !(ip ++ fp).isEmpty && (ip ++ fp).all Char.isDigit then
      some ((digitsVal (ip ++ fp) : ℚ) / (10 : ℚ) ^ fp.length)
    else none

/-- Python `float(s)` on a string: strip, optional sign, decimal mantissa,
optional exponent (`inf`, `nan` and underscore separators are not modelled,
and the exact decimal value is kept instead of the nearest binary float). -/
def parseFloatChars (l0 : List Char) : Option ℚ :=
  let l := pyStrip l0
  let sb : ℚ × List Char :=
    match l with
    | '+' :: r => (1, r)
    | '-' :: r => (-1, r)
    | r => (1, r)
  let (mant, erest) := breakAt (fun c => c == 'e' || c == 'E') sb.2
  match erest with
  | [] => (parseMantissa mant).map (sb.1 * ·)
  | _ :: es =>
    match parseMantissa mant, parseSignedDigits es with
    | some m, some e => some (sb.1 * m * (10 : ℚ) ^ e)
    | _, _ => none

/-- Python `int(s)` on a string. -/
def parseIntChars (l : List Char) : Option ℤ :=
  parseSignedDigits (pyStrip l)

/-- Python `float(x)` on a parsed-JSON value: numbers pass through, booleans
become 0/1, strings are parsed, everything else raises `TypeError`. -/
def pyFloat : Json → Except Unit ℚ
  | .num q => .ok q
  | .bool b => .ok (if b then 1 else 0)
  | .str s =>
    match parseFloatChars s.data with
    | some q => .ok q
    | none => .error ()
  | _ => .error ()

/-- Model of `"/".join(genders) if genders else "공용"`: joining iterates
strings and dict keys as well, and raises `TypeError` on numbers/booleans
or on a list with a non-string element. -/
def genderOf (g : Json) : Except Unit String :=
  if pyTruthy g then
    match g with
    | .arr xs =>
      match xs.mapM (fun x => match x with | .str s => some s | _ => none) with
      | some ss => .ok (String.intercalate "/" ss)
      | none => .error ()
    | .str s => .ok (String.intercalate "/" (s.data.map (fun c => String.mk [c])))
    | .obj kvs => .ok (String.intercalate "/" (kvs.map (fun kv => kv.1)))
    | _ => .error ()
  else .ok "공용"

/-! ### Product Detail Extractor (src/app/crawler.py, `extract_data_from_script_tag`)

The extraction below starts from the parsed embedded-state object
(`data = json.loads(...)`, lines 53–150 of crawler.py).  `Except.error ()`
stands for an exception inside the `try` block, which the surrounding
handler turns into the `None` result. -/

/-- Dictionary returned by `extract_data_from_script_tag` (crawler.py lines
129–150).  Local variables that the source computes but does not return
(`style_no`, `category_full`, `delivery_info`, `courier_name`, `gender`)
appear in the extraction only through their effect on control flow. -/
structure DetailData where
  product_name : Json
  goods_no : Json
  brand : Json
  brand_english : Json
  category : Json
  category_depth1 : Json
  category_depth1_code : Json
  category_depth2 : Json
  category_depth2_code : Json
  category_depth3 : Json
  category_depth3_code : Json
  image_url : String
  review_count : Json
  review_score : Json
  normal_price : ℚ
  sale_price : ℚ
  discount_rate : Json
  is_sale : Json
  is_sold_out : Json

/-- Embedding of crawler.py lines 53–150, from the parsed state object to
either the returned dictionary or an in-`try` exception. -/
def extract_data_core (data : Json) : Except Unit DetailData :=
  match asObj data with
  | .error e => .error e
  | .ok kvs =>
    let product_name := pyGet kvs "goodsNm"
    let goods_no := pyGet kvs "goodsNo"
    let _style_no := pyGet kvs "styleNo"
    match asObj (getObjOr kvs "brandInfo") with
    | .error e => .error e
    | .ok bkvs =>
      let brand := pyGet bkvs "brandName"
      let brand_english := pyGet bkvs "brandEnglishName"
      let image_url_raw := pyGet kvs "thumbnailImageUrl"
      match asObj (getObjOr kvs "goodsPrice") with
      | .error e => .error e
      | .ok pkvs =>
        match pyFloat (pyGetD pkvs "normalPrice" (.num 0)) with
        | .error e => .error e
        | .ok normal_price =>
          match pyFloat (pyGetD pkvs "salePrice" (.num 0)) with
          | .error e => .error e
          | .ok sale_price =>
            let discount_rate := pyGetD pkvs "discountRate" (.num 0)
            let is_sale := pyGetD pkvs "isSale" (.bool false)
            match asObj (getObjOr kvs "category") with
            | .error e => .error e
            | .ok ckvs =>
              let d1 := pyGetD ckvs "categoryDepth1Name" (.str "")
              let d2 := pyGetD ckvs "categoryDepth2Name" (.str "")
              let d3 := pyGetD ckvs "categoryDepth3Name" (.str "")
              let c1 := pyGetD ckvs "categoryDepth1Code" (.str "")
              let c2 := pyGetD ckvs "categoryDepth2Code" (.str "")
              let c3 := pyGetD ckvs "categoryDepth3Code" (.str "")
              let out_of_stock := pyGetD kvs "outOfStock" (.bool false)
              let is_sold_out := pyGetD kvs "isSoldOut" out_of_stock
              match asObj (getObjOr kvs "goodsReview") with
              | .error e => .error e
              | .ok rkvs =>
                let review_count := pyGetD rkvs "totalCount" (.num 0)
                let review_score := pyGetD rkvs "satisfactionScore" (.num 0)
                match asObj (getObjOr kvs "goodsLogisticsInfo") with
                | .error e => .error e
                | .ok lkvs =>
                  let _delivery_info := pyGetD lkvs "deliveryInfoName" (.str "")
                  let _courier_name := pyGetD lkvs "courierName" (.str "")
                  match genderOf (pyGetD kvs "genders" (.arr [])) with
                  | .error e => .error e
                  | .ok _gender =>
                    if pyTruthy product_name && pyTruthy brand && pyTruthy image_url_raw then
                      match asStr image_url_raw with
                      | .error e => .error e
                      | .ok img =>
                        let image_url :=
                          if pyStartsWith img "//" then "https:" ++ img
                          else if pyStartsWith img "/" then "https://image.msscdn.net" ++ img
                          else img
                        .ok {
                          product_name, goods_no, brand, brand_english,
                          category := if pyTruthy d2 then d2 else d1,
                          category_depth1 := d1, category_depth1_code := c1,
                          category_depth2 := d2, category_depth2_code := c2,
                          category_depth3 := d3, category_depth3_code := c3,
                          image_url, review_count, review_score,
                          normal_price, sale_price, discount_rate, is_sale, is_sold_out }
                    else .error ()

/-- Result of the detail extractor at its boundary: any in-`try` exception
and the required-field fall-through both collapse to the `None` signal. -/
def extract_data_from_script_state (data : Json) : Option DetailData :=
  (extract_data_core data).toOption

/-- Presence of the three required-for-success fields in the embedded state
object: product name (`goodsNm`), brand name (`brandInfo.brandName`) and
image URL (`thumbnailImageUrl`), each required to be Python-truthy. -/
def requiredFieldsPresent (data : Json) : Bool :=
  match data with
  | .obj kvs =>
    pyTruthy (pyGet kvs "goodsNm") &&
      (match getObjOr kvs "brandInfo" with
       | .obj bkvs => pyTruthy (pyGet bkvs "brandName")
       | _ => false) &&
      pyTruthy (pyGet kvs "thumbnailImageUrl")
  | _ => false

/-- Value of `goodsPrice.discountRate` exactly as the source reads it
(default 0), without any recomputation. -/
def statePriceDiscount (data : Json) : Json :=
  match data with
  | .obj kvs =>
    match getObjOr kvs "goodsPrice" with
    | .obj pkvs => pyGetD pkvs "discountRate" (.num 0)
    | _ => .num 0
  | _ => .num 0

theorem asObj_ok {j : Json} {kvs : List (String × Json)} (h : asObj j = .ok kvs) :
    j = .obj kvs := by
  cases j <;> simp [asObj] at h
  rw [h]

/-- Structural inventory of a successful detail extraction: the three
required fields were truthy, and the reported discount rate is exactly the
raw `discountRate` value of the state object. -/
theorem extract_ok_inv (data : Json) (r : DetailData)
    (h : extract_data_core data = .ok r) :
    requiredFieldsPresent data = true ∧ r.discount_rate = statePriceDiscount data := by
  unfold extract_data_core at h
  split at h
  next => simp at h
  next kvs h1 =>
    split at h
    next => simp at h
    next bkvs h2 =>
      split at h
      next => simp at h
      next pkvs h3 =>
        split at h
        next => simp at h
        next np h4 =>
          split at h
          next => simp at h
          next sp h5 =>
            split at h
            next => simp at h
            next ckvs h6 =>
              split at h
              next => simp at h
              next rkvs h7 =>
                split at h
                next => simp at h
                next lkvs h8 =>
                  split at h
                  next => simp at h
                  next g h9 =>
                    dsimp only at h
                    split at h
                    next hcond =>
                      split at h
                      next => simp at h
                      next img h10 =>
                        rw [Except.ok.injEq] at h
                        subst h
                        rw [asObj_ok h1]
                        constructor
                        · rw [requiredFieldsPresent, asObj_ok h2]
                          simp only [Bool.and_eq_true] at hcond ⊢
                          exact hcond
                        · rw [statePriceDiscount, asObj_ok h3]
                    next => simp at h

/-! ### C5: missing required fields give the definite absence signal -/

/-- C5: for every embedded state object lacking any of the three required
fields (product name, brand name, image URL), the detail extractor returns
the absence signal `none`; by construction of the embedding no exception
escapes the extractor (every in-`try` exception is an `Except.error` mapped
to `none`). -/
theorem C5_required_fields (data : Json)
    (h : requiredFieldsPresent data = false) :
    extract_data_from_script_state data = none := by
  unfold extract_data_from_script_state
  cases he : extract_data_core data with
  | error e => rfl
  | ok r =>
    have := (extract_ok_inv data r he).1
    rw [this] at h
    exact absurd h (by simp)

/-- C5 witness: a state object whose brand name is missing yields `none`. -/
theorem C5_required_fields_witness :
    requiredFieldsPresent (Json.obj
      [("goodsNm", .str "셔츠"), ("thumbnailImageUrl", .str "//img.example/1.jpg"),
       ("brandInfo", .obj [])]) = false ∧
    extract_data_from_script_state (Json.obj
      [("goodsNm", .str "셔츠"), ("thumbnailImageUrl", .str "//img.example/1.jpg"),
       ("brandInfo", .obj [])]) = none := by
  refine ⟨by rfl, C5_required_fields _ (by rfl)⟩

/-! ### Category Listing Extractor (src/app/category_crawler.py, `fetch_category_products`)

One rendered product container is modelled by the attributes and nested
elements the source reads from it; the page's scroll behaviour is modelled
by the function `rounds` giving the containers visible on each scroll round. -/

structure ImgEl where
  alt : Option String
  src : Option String
deriving Repr

structure LinkEl where
  href : Option String
  dataBrandId : Option String
  dataItemBrand : Option String
  dataItemId : Option String
  dataPrice : Option String
  dataOriginalPrice : Option String
  dataDiscountRate : Option String
  img : Option ImgEl
deriving Repr

structure ContainerEl where
  link : Option LinkEl
  spans : List (Option String)
deriving Repr

/-- Python `attribute or default` on the result of `get_attribute`: both a
missing attribute (`None`) and an empty string fall back to the default. -/
def attrOr (a : Option String) (d : String) : String :=
  match a with
  | none => d
  | some s => if s = "" then d else s

/-- Python `attribute or None`. -/
def attrOrNone (a : Option String) : Option String :=
  match a with
  | none => none
  | some s => if s = "" then none else some s

/-- Model of `int(await link.get_attribute(name) or "0")`; `none` is the
`ValueError` that makes the per-element handler skip the element. -/
def attrInt (a : Option String) : Option ℤ :=
  parseIntChars (attrOr a "0").data

/-- Nonempty all-digit check, i.e. Python `str.isdigit()` on ASCII input. -/
def pyIsDigitStr (l : List Char) : Bool := !l.isEmpty && l.all Char.isDigit

/-- One span of the review-information scan (category_crawler.py lines
269–294): a decimal in [0.0, 5.0] updates the score, a parenthesized
integer updates the count, anything else leaves the accumulator unchanged. -/
def reviewStep (acc : ℤ × ℚ) (sp : Option String) : ℤ × ℚ :=
  match sp with
  | none => acc
  | some t0 =>
    if t0 = "" then acc
    else
      let t := pyStrip t0.data
      if pyIsDigitStr (t.filter (fun c => c != '.' && c != ',')) && t.contains '.' then
        match parseFloatChars (t.filter (fun c => c != ',')) with
        | some q => if 0 ≤ q ∧ q ≤ 5 then (acc.1, q) else acc
        | none => acc
      else if t.head? = some '(' ∧ t.getLast? = some ')' then
        let inner := ((t.drop 1).dropLast).filter (fun c => c != ',')
        if pyIsDigitStr inner then (digitsVal inner, acc.2) else acc
      else acc

/-- Review count and score scanned from the yellow spans of one container. -/
def reviewOf (spans : List (Option String)) : ℤ × ℚ :=
  spans.foldl reviewStep (0, 0)

/-- Original-price fallback of category_crawler.py lines 251–255: a missing
original price is derived from sale price and discount when both are
positive (`int()` truncates the float quotient; discount 100 raises
`ZeroDivisionError`, modelled as `none`), and otherwise defaults to the
sale price. -/
def derivedOriginal (original discount sale : ℤ) : Option ℤ :=
  if original = 0 ∧ 0 < discount ∧ 0 < sale then
    -- the float denominator `1 - discount / 100` is exactly 0.0 iff discount = 100
    if discount = 100 then none
    else some (pyTrunc ((sale : ℚ) / (1 - (discount : ℚ) / 100)))
  else if original = 0 then some sale
  else some original

/-- Lightweight snapshot dictionary built for one listing element
(category_crawler.py lines 309–325). -/
structure ProdData where
  product_url : String
  product_name : Option String
  goods_no : ℤ
  brand : String
  brand_english : Option String
  category : Option String
  category_code : String
  normal_price : ℤ
  sale_price : ℤ
  discount_rate : ℤ
  price_text : String
  image_url : Option String
  review_count : ℤ
  review_score : ℚ
  is_sold_out : Bool
deriving Repr, Inhabited

/-- Embedding of the per-container extraction (category_crawler.py lines
227–325); `none` covers every `continue` path, including the per-element
exception handler. -/
def elemExtract (cats : List (String × String)) (category_code : String)
    (e : ContainerEl) : Option ProdData :=
  match e.link with
  | none => none
  | some l =>
    match l.href with
    | none => none
    | some href =>
      if href = "" then none
      else
        let product_url :=
          if pyStartsWith href "/" then "https://www.musinsa.com" ++ href else href
        let brand := attrOr l.dataBrandId "Unknown"
        let brand_english := attrOrNone l.dataItemBrand
        match attrInt l.dataItemId with
        | none => none
        | some goods_no =>
          match attrInt l.dataPrice with
          | none => none
          | some sale_price =>
            match attrInt l.dataOriginalPrice with
            | none => none
            | some original_price0 =>
              match attrInt l.dataDiscountRate with
              | none => none
              | some discount_rate =>
                match derivedOriginal original_price0 discount_rate sale_price with
                | none => none
                | some original_price =>
                  let product_name :=
                    match l.img with
                    | some im => im.alt
                    | none => some "Unknown"
                  let image_url :=
                    match l.img with
                    | some im => im.src
                    | none => none
                  let rv := reviewOf e.spans
                  let category_name :=
                    (cats.find? (fun nc => nc.2 == category_code)).map (fun nc => nc.1)
                  let price_text :=
                    "판매가: " ++ toString sale_price ++ "원, 원가: " ++
                    toString original_price ++ "원, 할인율: " ++ toString discount_rate ++ "%"
                  some {
                    product_url, product_name, goods_no, brand, brand_english,
                    category := category_name, category_code,
                    normal_price := original_price, sale_price, discount_rate,
                    price_text, image_url,
                    review_count := rv.1, review_score := rv.2,
                    is_sold_out := false }

/-- Fixed scroll budget of the listing extractor. -/
def max_scrolls : ℕ := 10

/-- One scroll round over the currently rendered containers: dedup by URL
within the run, stop as soon as the target count is reached (the mid-round
`break`). -/
def processRound (target : ℕ) (cats : List (String × String)) (code : String) :
    List ContainerEl → List ProdData → List String → List ProdData × List String
  | [], ps, seen => (ps, seen)
  | e :: es, ps, seen =>
    match elemExtract cats code e with
    | none => processRound target cats code es ps seen
    | some p =>
      if p.product_url ∈ seen then processRound target cats code es ps seen
      else if target ≤ (ps ++ [p]).length then (ps ++ [p], p.product_url :: seen)
      else processRound target cats code es (ps ++ [p]) (p.product_url :: seen)

/-- Embedding of the `while len(products) < target_count and scroll_count <
max_scrolls` loop; the second component counts the rounds performed. -/
def scrollLoop (rounds : ℕ → List ContainerEl) (target : ℕ)
    (cats : List (String × String)) (code : String) :
    ℕ → List ProdData → List String → ℕ → List ProdData × ℕ
  | sc, ps, seen, perf =>
    if h : ps.length < target ∧ sc < max_scrolls then
      if target ≤ (processRound target cats code (rounds sc) ps seen).1.length then
        ((processRound target cats code (rounds sc) ps seen).1, perf + 1)
      else
        scrollLoop rounds target cats code (sc + 1)
          (processRound target cats code (rounds sc) ps seen).1
          (processRound target cats code (rounds sc) ps seen).2 (perf + 1)
    else (ps, perf)
termination_by sc => max_scrolls - sc
decreasing_by
  have := h.2
  omega

structure FetchOutcome where
  products : List ProdData
  roundsPerformed : ℕ
deriving Repr

/-- Embedding of `fetch_category_products`: when the structural container
selector never appears within its timeout the caught timeout returns the
still-empty product list without entering the scroll loop; otherwise the
scroll loop runs. -/
def fetch_category_products (containerFound : Bool) (rounds : ℕ → List ContainerEl)
    (cats : List (String × String)) (category_code : String) (target : ℕ) :
    FetchOutcome :=
  if containerFound then
    let out := scrollLoop rounds target cats category_code 0 [] [] 0
    { products := out.1, roundsPerformed := out.2 }
  else { products := [], roundsPerformed := 0 }

/-! ### C8 and C9: scroll-loop bounds and the container-not-found path -/

theorem processRound_length_le (target : ℕ) (cats : List (String × String)) (code : String) :
    ∀ (es : List ContainerEl) (ps : List ProdData) (seen : List String),
      ps.length < target → ((processRound target cats code es ps seen).1).length ≤ target := by
  intro es
  induction es with
  | nil => intro ps seen h; simpa [processRound] using h.le
  | cons e es ih =>
    intro ps seen h
    rw [processRound]
    split
    next => exact ih ps seen h
    next p hx =>
      split
      next => exact ih ps seen h
      next =>
        split
        next htar =>
          simp only [List.length_append, List.length_singleton]
          omega
        next htar =>
          apply ih
          simp only [List.length_append, List.length_singleton] at htar ⊢
          omega

theorem scrollLoop_bounds (rounds : ℕ → List ContainerEl) (target : ℕ)
    (cats : List (String × String)) (code : String) :
    ∀ (n sc : ℕ), max_scrolls - sc ≤ n → ∀ (ps : List ProdData) (seen : List String) (perf : ℕ),
      ps.length ≤ target →
      ((scrollLoop rounds target cats code sc ps seen perf).1).length ≤ target ∧
      (scrollLoop rounds target cats code sc ps seen perf).2 ≤ perf + (max_scrolls - sc) := by
  have hms : max_scrolls = 10 := rfl
  intro n
  induction n with
  | zero =>
    intro sc hsc ps seen perf h
    rw [scrollLoop, dif_neg (by omega)]
    exact ⟨h, by omega⟩
  | succ n ih =>
    intro sc hsc ps seen perf h
    rw [scrollLoop]
    by_cases hc : ps.length < target ∧ sc < max_scrolls
    · rw [dif_pos hc]
      have hlen : ((processRound target cats code (rounds sc) ps seen).1).length ≤ target :=
        processRound_length_le target cats code (rounds sc) ps seen hc.1
      by_cases ht : target ≤ ((processRound target cats code (rounds sc) ps seen).1).length
      · rw [if_pos ht]
        exact ⟨hlen, by omega⟩
      · rw [if_neg ht]
        have := ih (sc + 1) (by omega) (processRound target cats code (rounds sc) ps seen).1
          (processRound target cats code (rounds sc) ps seen).2 (perf + 1) hlen
        exact ⟨this.1, by omega⟩
    · rw [dif_neg hc]
      exact ⟨h, by omega⟩

/-- C8: the scroll loop of the category listing extractor always terminates
with at most `max_scrolls = 10` rounds performed — for every page behaviour,
including pages that never yield new elements — and the returned product
sequence never exceeds the requested target count (the loop stops mid-round
as soon as the deduplicated count reaches the target). -/
theorem C8_scroll_bounded (containerFound : Bool) (rounds : ℕ → List ContainerEl)
    (cats : List (String × String)) (code : String) (target : ℕ) :
    (fetch_category_products containerFound rounds cats code target).products.length ≤ target ∧
    (fetch_category_products containerFound rounds cats code target).roundsPerformed
      ≤ max_scrolls := by
  unfold fetch_category_products
  cases containerFound with
  | false => simp
  | true =>
    simp only [if_pos]
    have := scrollLoop_bounds rounds target cats code max_scrolls 0 (by omega) [] [] 0 (by simp)
    exact ⟨this.1, by simpa using this.2⟩

/-- C9: when the structural product-container selector never appears within
its timeout, the extractor returns the empty product sequence — a normal
return, not an exception — and performs zero scroll rounds. -/
theorem C9_container_not_found (rounds : ℕ → List ContainerEl)
    (cats : List (String × String)) (code : String) (target : ℕ) :
    fetch_category_products false rounds cats code target =
      { products := [], roundsPerformed := 0 } := rfl

/-! ### C6 and C7: provenance of discount rate and derived original price -/

instance : Inhabited Json := ⟨.null⟩

instance : Inhabited DetailData :=
  ⟨⟨.null, .null, .null, .null, .null, .null, .null, .null, .null, .null, .null,
    "", .null, .null, 0, 0, .null, .null, .null⟩⟩

/-- Structural inventory of a successful listing-element extraction: the
commerce fields of the snapshot are the parsed data attributes of the link
element, with the original price passed through the fallback derivation. -/
theorem elemExtract_ok_fields (cats : List (String × String)) (code : String)
    (e : ContainerEl) (p : ProdData) (h : elemExtract cats code e = some p) :
    ∃ l, e.link = some l ∧
      attrInt l.dataPrice = some p.sale_price ∧
      attrInt l.dataDiscountRate = some p.discount_rate ∧
      ∃ orig0, attrInt l.dataOriginalPrice = some orig0 ∧
        derivedOriginal orig0 p.discount_rate p.sale_price = some p.normal_price := by
  unfold elemExtract at h
  split at h
  next => simp at h
  next l hl =>
    refine ⟨l, hl, ?_⟩
    split at h
    next => simp at h
    next href hh =>
      split at h
      next => simp at h
      next hne =>
        -- the two branches of the URL normalization are otherwise identical
        split at h <;>
        · split at h
          next => simp at h
          next goods_no hgn =>
            split at h
            next => simp at h
            next sale_price hsp =>
              split at h
              next => simp at h
              next orig0 ho =>
                split at h
                next => simp at h
                next d hd =>
                  split at h
                  next => simp at h
                  next orig hder =>
                    rw [Option.some.injEq] at h
                    subst h
                    exact ⟨hsp, hd, orig0, ho, hder⟩

/-- C6 counterexample: a state object whose `goodsPrice` carries
`normalPrice 100`, `salePrice 50` but `discountRate 0` produces a snapshot
whose discount rate is the raw `0`, while the derived value
`round((normal - sale) / normal * 100, 1)` is `50`, refuting the claim that
the snapshot's discount rate always equals the derived value. -/
def discountStateEx : Json :=
  .obj [("goodsNm", .str "셔츠"), ("brandInfo", .obj [("brandName", .str "브랜드")]),
        ("thumbnailImageUrl", .str "https://image.example/1.jpg"),
        ("goodsPrice", .obj [("normalPrice", .num 100), ("salePrice", .num 50),
                             ("discountRate", .num 0)])]

theorem C6_discount_counterexample :
    (extract_data_from_script_state discountStateEx).map
        (fun r => (r.normal_price, r.sale_price, r.discount_rate)) =
      some (100, 50, Json.num 0) ∧
    pyRound1 ((((100 : ℚ) - 50) / 100) * 100) = 50 ∧ ¬ ((0 : ℚ) = 50) := by
  refine ⟨rfl, ?_, by norm_num⟩
  rw [pyRound1, roundHalfEven]
  norm_num

/-- C6 (amended): the discount rate of every snapshot is taken verbatim from
the source data — the detail extractor returns the raw
`goodsPrice.discountRate` (default 0) and the listing extractor returns the
parsed `data-discount-rate` attribute (default 0) — and is never recomputed
from the two prices. -/
theorem C6_discount_passthrough_amended :
    (∀ (data : Json) (r : DetailData),
        extract_data_from_script_state data = some r →
        r.discount_rate = statePriceDiscount data) ∧
    (∀ (cats : List (String × String)) (code : String) (e : ContainerEl) (p : ProdData),
        elemExtract cats code e = some p →
        ∃ l, e.link = some l ∧ attrInt l.dataDiscountRate = some p.discount_rate) := by
  constructor
  · intro data r h
    unfold extract_data_from_script_state at h
    cases he : extract_data_core data with
    | error e => rw [he] at h; simp [Except.toOption] at h
    | ok r2 =>
      rw [he] at h
      simp only [Except.toOption, Option.some.injEq] at h
      subst h
      exact (extract_ok_inv data r2 he).2
  · intro cats code e p h
    obtain ⟨l, hl, _, hd, _⟩ := elemExtract_ok_fields cats code e p h
    exact ⟨l, hl, hd⟩

def detailDataEx : DetailData := (extract_data_from_script_state discountStateEx).getD default

def listingLinkEx : LinkEl :=
  { href := some "/products/1", dataBrandId := none, dataItemBrand := none,
    dataItemId := some "1", dataPrice := some "100", dataOriginalPrice := none,
    dataDiscountRate := some "30", img := none }

def listingElemEx : ContainerEl := { link := some listingLinkEx, spans := [] }

def listingProdEx : ProdData := (elemExtract [] "001" listingElemEx).getD default

/-- C6 witness: both parts of the amended theorem applied to concrete
extractions. -/
theorem C6_discount_passthrough_amended_witness :
    (extract_data_from_script_state discountStateEx = some detailDataEx ∧
      detailDataEx.discount_rate = statePriceDiscount discountStateEx) ∧
    (elemExtract [] "001" listingElemEx = some listingProdEx ∧
      ∃ l, listingElemEx.link = some l ∧
        attrInt l.dataDiscountRate = some listingProdEx.discount_rate) :=
  ⟨⟨rfl, C6_discount_passthrough_amended.1 discountStateEx detailDataEx rfl⟩,
   ⟨rfl, C6_discount_passthrough_amended.2 [] "001" listingElemEx listingProdEx rfl⟩⟩

/-- C7 counterexample: for an element with sale price 100, discount 30 and a
missing original-price attribute, the code computes
`int(100 / (1 - 30/100)) = 142` (truncation), while the claimed rounding to
the nearest integer would give `143`. -/
theorem C7_original_price_counterexample :
    (elemExtract [] "001" listingElemEx).map (fun p => p.normal_price) =
      some (pyTrunc ((100 : ℚ) / (1 - (30 : ℚ) / 100))) ∧
    pyTrunc ((100 : ℚ) / (1 - (30 : ℚ) / 100)) = 142 ∧
    roundHalfEven ((100 : ℚ) / (1 - (30 : ℚ) / 100)) = 143 ∧ ((142 : ℤ) ≠ 143) := by
  refine ⟨rfl, ?_, ?_, by decide⟩
  · rw [pyTrunc, if_pos (by norm_num)]
    norm_num
  · rw [roundHalfEven]
    norm_num [Int.even_iff]

/-- C7 (amended): in the listing extractor, for every element whose
original-price attribute is absent (parsed as 0): when both the sale price
and the discount percentage are positive, the original price is
`sale_price / (1 - discount/100)` truncated toward zero by `int()` — not
rounded to the nearest integer — and when the discount is absent as well,
the original price defaults to the sale price. -/
theorem C7_original_price_amended :
    (∀ (cats : List (String × String)) (code : String) (e : ContainerEl) (l : LinkEl)
        (sp d : ℤ) (p : ProdData),
        e.link = some l →
        attrInt l.dataOriginalPrice = some 0 →
        attrInt l.dataPrice = some sp →
        attrInt l.dataDiscountRate = some d →
        0 < sp → 0 < d →
        elemExtract cats code e = some p →
        p.normal_price = pyTrunc ((sp : ℚ) / (1 - (d : ℚ) / 100))) ∧
    (∀ (cats : List (String × String)) (code : String) (e : ContainerEl) (l : LinkEl)
        (sp : ℤ) (p : ProdData),
        e.link = some l →
        attrInt l.dataOriginalPrice = some 0 →
        attrInt l.dataPrice = some sp →
        attrInt l.dataDiscountRate = some 0 →
        elemExtract cats code e = some p →
        p.normal_price = p.sale_price ∧ p.sale_price = sp) := by
  constructor
  · intro cats code e l sp d p hl h0 hsp hd hsppos hdpos hext
    obtain ⟨l2, hl2, hsp2, hd2, orig0, horig, hder⟩ := elemExtract_ok_fields cats code e p hext
    rw [hl, Option.some.injEq] at hl2
    subst hl2
    rw [hsp, Option.some.injEq] at hsp2
    rw [hd, Option.some.injEq] at hd2
    rw [h0, Option.some.injEq] at horig
    rw [← horig, ← hd2, ← hsp2, derivedOriginal, if_pos ⟨rfl, hdpos, hsppos⟩] at hder
    by_cases h100 : d = 100
    · rw [if_pos h100] at hder
      simp at hder
    · rw [if_neg h100] at hder
      rw [Option.some.injEq] at hder
      exact hder.symm
  · intro cats code e l sp p hl h0 hsp hd hext
    obtain ⟨l2, hl2, hsp2, hd2, orig0, horig, hder⟩ := elemExtract_ok_fields cats code e p hext
    rw [hl, Option.some.injEq] at hl2
    subst hl2
    rw [hsp, Option.some.injEq] at hsp2
    rw [hd, Option.some.injEq] at hd2
    rw [h0, Option.some.injEq] at horig
    rw [← horig, ← hd2, ← hsp2, derivedOriginal, if_neg (by simp), if_pos rfl] at hder
    rw [Option.some.injEq] at hder
    exact ⟨hder.symm.trans hsp2, hsp2.symm⟩

/-- C7 witness: the first branch of the amended theorem applied to the
concrete element with sale 100, discount 30 and no original price. -/
theorem C7_original_price_amended_witness :
    (listingElemEx.link = some listingLinkEx ∧
     attrInt listingLinkEx.dataOriginalPrice = some 0 ∧
     attrInt listingLinkEx.dataPrice = some 100 ∧
     attrInt listingLinkEx.dataDiscountRate = some 30 ∧
     (0 : ℤ) < 100 ∧ (0 : ℤ) < 30 ∧
     elemExtract [] "001" listingElemEx = some listingProdEx) ∧
    listingProdEx.normal_price = pyTrunc ((100 : ℚ) / (1 - (30 : ℚ) / 100)) :=
  ⟨⟨rfl, rfl, rfl, rfl, by decide, by decide, rfl⟩,
   C7_original_price_amended.1 [] "001" listingElemEx listingLinkEx 100 30 listingProdEx
     rfl rfl rfl rfl (by decide) (by decide) rfl⟩

/-! ### Persistence model (src/app/models.py) and services (src/app/services.py)

Rows are keyword-value lists.  SQLAlchemy's default declarative constructor
accepts a keyword only when it names a mapped attribute of the model class
and raises `TypeError` otherwise; `sqlaNew` models exactly that check
against the attribute lists read off models.py. -/

inductive Val where
  | none
  | str (s : String)
  | int (n : ℤ)
  | rat (q : ℚ)
  | bool (b : Bool)
  | json (j : Json)

abbrev Row := List (String × Val)

def rowGet (r : Row) (k : String) : Option Val := r.lookup k

/-- SQL equality of a stored column value against a string (NULL and
non-string values compare unequal). -/
def valEqStr : Option Val → String → Bool
  | some (.str s), u => s == u
  | _, _ => false

/-- SQL filter `column == True`. -/
def valIsTrue : Option Val → Bool
  | some (.bool b) => b
  | _ => false

/-- Mapped attribute names of the `Product` model (models.py lines 11–45):
all columns plus the `price_history` relationship. -/
def productColumns : List String :=
  ["id", "product_name", "goods_no", "style_no", "brand", "brand_english",
   "category", "category_depth1", "category_depth2", "category_depth3",
   "product_url", "image_url", "normal_price", "sale_price", "discount_rate",
   "is_sale", "review_count", "review_score", "delivery_info", "courier_name",
   "gender", "is_sold_out", "stock_status", "original_price", "is_active",
   "create_at", "price_history"]

/-- Mapped attribute names of the `PriceHistory` model (models.py lines
47–63): `id`, `product_id`, `price`, `discount_price`, `discount_rate`,
`stock_status`, `is_sold_out`, `crawled_at`, plus the `product`
relationship.  Note there is no `normal_price` and no `sale_price` column. -/
def priceHistoryColumns : List String :=
  ["id", "product_id", "price", "discount_price", "discount_rate",
   "stock_status", "is_sold_out", "crawled_at", "product"]

/-- SQLAlchemy declarative constructor: every supplied keyword must name a
mapped attribute, otherwise `TypeError` is raised. -/
def sqlaNew (cols : List String) (kwargs : List (String × Val)) : Except String Row :=
  if kwargs.all (fun kv => cols.contains kv.1) then .ok kwargs
  else .error "invalid keyword argument"

def optStrVal : Option String → Val
  | Option.none => .none
  | some s => .str s

structure Db where
  products : List Row
  priceHistory : List Row
  nextId : ℤ

/-- Keyword arguments of `models.Product(**product_data)` in
`crawl_and_save_multiple_categories` (services.py lines 111–124). -/
def productKwargs (p : ProdData) : List (String × Val) :=
  [("product_name", optStrVal p.product_name),
   ("goods_no", .int p.goods_no),
   ("brand", .str p.brand),
   ("brand_english", optStrVal p.brand_english),
   ("category", optStrVal p.category),
   ("product_url", .str p.product_url),
   ("image_url", optStrVal p.image_url),
   ("review_count", .int p.review_count),
   ("review_score", .rat p.review_score),
   ("is_active", .bool true)]

/-- Keyword arguments of `models.PriceHistory(...)` in
`crawl_and_save_multiple_categories` (services.py lines 129–135). -/
def priceHistoryKwargs (pid : ℤ) (p : ProdData) : List (String × Val) :=
  [("product_id", .int pid),
   ("normal_price", .int p.normal_price),
   ("sale_price", .int p.sale_price),
   ("discount_rate", .int p.discount_rate),
   ("is_sold_out", .bool p.is_sold_out)]

inductive ItemOutcome
  | saved
  | skipped
  | ignoredNoUrl
  | errored
deriving DecidableEq

/-- Per-snapshot body of the reconciliation loop (services.py lines 95–141):
missing URL skips silently; an existing product with the same URL counts as
skipped with no mutation; otherwise the Product row is inserted and flushed,
after which the `PriceHistory` construction raises (its keywords name
nonexistent columns), so the per-item handler catches the exception, the
flushed Product row stays in the transaction, and nothing is counted. -/
def processSnapshot (db : Db) (p : ProdData) : Db × ItemOutcome :=
  if p.product_url = "" then (db, .ignoredNoUrl)
  else if (db.products.find? (fun r => valEqStr (rowGet r "product_url") p.product_url)).isSome
  then (db, .skipped)
  else
    match sqlaNew productColumns (productKwargs p) with
    | .error _ => (db, .errored)
    | .ok row =>
      -- db.add(db_product); db.flush(): the row and its generated id become visible
      match sqlaNew priceHistoryColumns (priceHistoryKwargs db.nextId p) with
      | .error _ =>
        ({ db with products := db.products ++ [("id", Val.int db.nextId) :: row],
                   nextId := db.nextId + 1 }, .errored)
      | .ok ph =>
        ({ db with products := db.products ++ [("id", Val.int db.nextId) :: row],
                   priceHistory := db.priceHistory ++ [ph],
                   nextId := db.nextId + 1 }, .saved)

/-- One category of the reconciliation loop: returns the updated session and
`(saved_count, skipped_count)`. -/
def processCategoryItems (db : Db) (ps : List ProdData) : Db × ℕ × ℕ :=
  ps.foldl
    (fun acc p =>
      match processSnapshot acc.1 p with
      | (db2, o) =>
        (db2, acc.2.1 + (if o = ItemOutcome.saved then 1 else 0),
         acc.2.2 + (if o = ItemOutcome.skipped then 1 else 0)))
    (db, 0, 0)

structure CatTotals where
  db : Db
  crawled : ℕ
  saved : ℕ
  skippedCount : ℕ
  perCategory : List (String × ℕ × ℕ × ℕ)

def runCategories : Db → List (String × List ProdData) → CatTotals
  | d, [] => ⟨d, 0, 0, 0, []⟩
  | d, (code, ps) :: rest =>
    match processCategoryItems d ps with
    | (d2, sv, sk) =>
      match runCategories d2 rest with
      | t =>
        ⟨t.db, ps.length + t.crawled, sv + t.saved, sk + t.skippedCount,
         (code, ps.length, sv, sk) :: t.perCategory⟩

structure CrawlSummary where
  total_crawled : ℕ
  total_saved : ℕ
  total_skipped : ℕ
  category_results : List (String × ℕ × ℕ × ℕ)

/-- Embedding of `crawl_and_save_multiple_categories` (services.py lines
64–174).  The category registry, the crawler and the session are passed in;
`Except.error codes` is the `ValueError` raised for invalid category codes —
raised before `fetch_multiple_categories` is consulted (the result holds for
every `fetchCategories`) and before any session write (no session state is
returned). -/
def crawl_and_save_multiple_categories
    (cats : List (String × String)) (category_codes : List String)
    (fetchCategories : List String → List (String × List ProdData))
    (save_to_db : Bool) (db : Option Db) :
    Except (List String) (CrawlSummary × Option Db) :=
  if (category_codes.filter (fun c => !((cats.map (fun kv => kv.2)).contains c))) ≠ [] then
    .error (category_codes.filter (fun c => !((cats.map (fun kv => kv.2)).contains c)))
  else
    match save_to_db, db with
    | true, some d =>
      match runCategories d (fetchCategories category_codes) with
      | t =>
        .ok ({ total_crawled := t.crawled, total_saved := t.saved,
               total_skipped := t.skippedCount, category_results := t.perCategory },
             some t.db)
    | _, _ =>
      .ok ({ total_crawled :=
               ((fetchCategories category_codes).map (fun cr => cr.2.length)).sum,
             total_saved := 0, total_skipped := 0,
             category_results :=
               (fetchCategories category_codes).map (fun cr => (cr.1, cr.2.length, 0, 0)) },
           db)

/-! ### Refresh engine (src/app/services.py, `update_product_prices`) -/

def rowUrl (r : Row) : String :=
  match rowGet r "product_url" with
  | some (.str s) => s
  | _ => ""

def rowId (r : Row) : ℤ :=
  match rowGet r "id" with
  | some (.int n) => n
  | _ => 0

/-- Keyword arguments of `models.PriceHistory(...)` in
`update_product_prices` (services.py lines 198–204), built from a detail
snapshot. -/
def detailPriceHistoryKwargs (pid : ℤ) (d : DetailData) : List (String × Val) :=
  [("product_id", .int pid),
   ("normal_price", .rat d.normal_price),
   ("sale_price", .rat d.sale_price),
   ("discount_rate", .json d.discount_rate),
   ("is_sold_out", .json d.is_sold_out)]

structure UpdateTotals where
  total_products : ℕ
  success_count : ℕ
  error_count : ℕ
  results : List (ℤ × String)

/-- One product of the refresh loop (services.py lines 191–233): a failed
crawl records `failed`; a successful crawl reaches the `PriceHistory`
constructor, whose keywords name nonexistent columns, so the per-product
handler records `error`. -/
def updateStep (fetch : String → Option DetailData)
    (acc : Db × ℕ × ℕ × List (ℤ × String)) (p : Row) :
    Db × ℕ × ℕ × List (ℤ × String) :=
  match fetch (rowUrl p) with
  | some cd =>
    match sqlaNew priceHistoryColumns (detailPriceHistoryKwargs (rowId p) cd) with
    | .ok ph =>
      ({ acc.1 with priceHistory := acc.1.priceHistory ++ [ph] },
       acc.2.1 + 1, acc.2.2.1, acc.2.2.2 ++ [(rowId p, "success")])
    | .error _ =>
      (acc.1, acc.2.1, acc.2.2.1 + 1, acc.2.2.2 ++ [(rowId p, "error")])
  | Option.none => (acc.1, acc.2.1, acc.2.2.1 + 1, acc.2.2.2 ++ [(rowId p, "failed")])

/-- Embedding of `update_product_prices` (services.py lines 177–244). -/
def update_product_prices (fetch : String → Option DetailData) (db : Db) :
    UpdateTotals × Db :=
  match db.products.filter (fun r => valIsTrue (rowGet r "is_active")) with
  | active =>
    match active.foldl (updateStep fetch) (db, 0, 0, []) with
    | out =>
      ({ total_products := active.length, success_count := out.2.1,
         error_count := out.2.2.1, results := out.2.2.2 }, out.1)

/-! ### C10: invalid category codes abort before crawling and before writes -/

/-- C10: whenever at least one requested category code is not among the
values of the cached category registry, the multi-category crawl-and-save
operation raises a `ValueError` naming the invalid codes.  The statement
holds for every crawler function `fetchCategories` and every session state
`db`, and the error result carries no session, so no category is crawled and
no write occurs. -/
theorem C10_invalid_category_codes (cats : List (String × String))
    (category_codes : List String)
    (fetchCategories : List String → List (String × List ProdData))
    (save_to_db : Bool) (db : Option Db) (c : String)
    (hc : c ∈ category_codes) (hnot : c ∉ cats.map (fun kv => kv.2)) :
    crawl_and_save_multiple_categories cats category_codes fetchCategories save_to_db db =
      .error (category_codes.filter (fun c2 => !((cats.map (fun kv => kv.2)).contains c2))) := by
  unfold crawl_and_save_multiple_categories
  rw [if_pos]
  exact List.ne_nil_of_mem (List.mem_filter.mpr ⟨hc, by simpa using hnot⟩)

/-- C10 witness: requesting the unknown code `999` against a registry whose
only code is `001` raises the `ValueError` listing `999`. -/
theorem C10_invalid_category_codes_witness :
    ("999" ∈ ["999"] ∧ "999" ∉ ([("상의", "001")].map (fun kv => kv.2))) ∧
    crawl_and_save_multiple_categories [("상의", "001")] ["999"] (fun _ => []) true
        Option.none =
      .error (["999"].filter
        (fun c2 => !(([("상의", "001")].map (fun kv => kv.2)).contains c2))) :=
  ⟨⟨by decide, by decide⟩,
   C10_invalid_category_codes [("상의", "001")] ["999"] (fun _ => []) true Option.none "999"
     (by decide) (by decide)⟩

/-! ### C1, C2, C3: the PriceHistory constructor mismatch

services.py constructs `models.PriceHistory(product_id=..., normal_price=...,
sale_price=..., discount_rate=..., is_sold_out=...)`, but the `PriceHistory`
model of models.py has columns `price` and `discount_price` instead of
`normal_price` and `sale_price` (analytics.py likewise reads
`PriceHistory.normal_price`/`sale_price`, confirming the model file is the
slip).  The constructor therefore raises `TypeError` on every call, which
each per-item handler swallows. -/

def snapA : ProdData :=
  { product_url := "https://www.musinsa.com/products/1", product_name := some "상품A",
    goods_no := 1, brand := "브랜드", brand_english := none, category := some "상의",
    category_code := "001", normal_price := 100, sale_price := 90, discount_rate := 10,
    price_text := "", image_url := some "https://image.example/a.jpg",
    review_count := 0, review_score := 0, is_sold_out := false }

def snapB : ProdData :=
  { snapA with product_url := "https://www.musinsa.com/products/2",
               product_name := some "상품B", goods_no := 2 }

def emptyDb : Db := ⟨[], [], 1⟩

def cats0 : List (String × String) := [("상의", "001")]

/-- C1: evaluation of the reconciliation engine at a batch holding one fresh
snapshot against an empty store.  The `PriceHistory` keywords are rejected
by the model's columns, so the run reports 0 saved and 0 skipped, yet the
already-flushed Product row stays in the committed session and no
PriceHistoryPoint exists — against the claim that a fresh snapshot creates
exactly one Product together with exactly one PriceHistoryPoint and is
counted as saved. -/
theorem C1_reconciliation_codebug :
    (sqlaNew priceHistoryColumns (priceHistoryKwargs 1 snapA)).isOk = false ∧
    crawl_and_save_multiple_categories cats0 ["001"] (fun _ => [("001", [snapA])]) true
        (some emptyDb) =
      .ok ({ total_crawled := 1, total_saved := 0, total_skipped := 0,
             category_results := [("001", 1, 0, 0)] },
           some { products := [("id", Val.int 1) :: productKwargs snapA],
                  priceHistory := [], nextId := 2 }) :=
  ⟨rfl, rfl⟩

def c2fetch : List String → List (String × List ProdData) :=
  fun _ => [("001", [snapA, snapB])]

def c2run1 : Except (List String) (CrawlSummary × Option Db) :=
  crawl_and_save_multiple_categories cats0 ["001"] c2fetch true (some emptyDb)

def c2db1 : Db :=
  match c2run1 with
  | .ok (_, some d) => d
  | _ => emptyDb

def c2run2 : Except (List String) (CrawlSummary × Option Db) :=
  crawl_and_save_multiple_categories cats0 ["001"] c2fetch true (some c2db1)

/-- C2: evaluation of the same two-snapshot batch reconciled twice from an
empty store.  The second run indeed saves 0 and skips everything, and
exactly N = 2 Product rows exist after both runs; but the first run reports
0 saved (every item errors in the `PriceHistory` constructor) instead of the
claimed N = 2, so the claim's first-run accounting fails on the code. -/
theorem C2_idempotence_codebug :
    c2run1.map (fun r => (r.1.total_crawled, r.1.total_saved, r.1.total_skipped)) =
      .ok (2, 0, 0) ∧
    c2db1.products.length = 2 ∧ c2db1.priceHistory.length = 0 ∧
    c2run2.map (fun r => (r.1.total_saved, r.1.total_skipped)) = .ok (0, 2) ∧
    c2run2.map (fun r => r.2.map (fun d => (d.products.length, d.priceHistory.length))) =
      .ok (some (2, 0)) :=
  ⟨rfl, rfl, rfl, rfl, rfl⟩

def prodRow (i : ℤ) (url : String) : Row :=
  [("id", .int i), ("product_url", .str url), ("is_active", .bool true)]

def c3db : Db := ⟨[prodRow 1 "u1", prodRow 2 "u2"], [], 3⟩

def c3fetch : String → Option DetailData :=
  fun u => if u = "u1" then some detailDataEx else none

/-- C3: evaluation of the refresh engine over K = 2 active products where
re-extraction succeeds for one and fails for the other.  The claim expects
success_count = 1, error_count = 1 and one appended PriceHistoryPoint; the
code yields success_count = 0, error_count = 2 and no history point, because
the successful crawl dies in the `PriceHistory` constructor (`error`
outcome) while the failed crawl is recorded as `failed`. -/
theorem C3_refresh_codebug :
    (sqlaNew priceHistoryColumns (detailPriceHistoryKwargs 1 detailDataEx)).isOk = false ∧
    (update_product_prices c3fetch c3db).1.total_products = 2 ∧
    (update_product_prices c3fetch c3db).1.success_count = 0 ∧
    (update_product_prices c3fetch c3db).1.error_count = 2 ∧
    (update_product_prices c3fetch c3db).1.results = [(1, "error"), (2, "failed")] ∧
    (update_product_prices c3fetch c3db).2.priceHistory.length = 0 :=
  ⟨rfl, rfl, rfl, rfl, rfl, rfl⟩

end Musinsa
